import Mathlib

/-!
Shallow embedding of the backend integration layer of the Retail-CPG
chatbot (`src/modules/integration.py`): the circuit breaker, the
response cache, the service adapters and the backend orchestrator,
together with theorems checking the specification's claims about them.

Modelling conventions:
* Python `datetime` values are modelled as whole seconds (`Nat`); for a
  nonnegative `timedelta` `a - b` the attribute `total_seconds()` is
  `a - b` and `.seconds` is `(a - b) % 86400` (the normalized
  seconds-within-a-day component).
* Python exceptions are modelled with `Except String`; a coroutine that
  may raise returns `Except String α`.
* Wall-clock latency (`response_time`) is not modelled: it is pure
  timing telemetry and no claim depends on it.
* The network is modelled by an explicit `HttpOutcome` argument that
  says how the single outbound HTTP attempt of `_make_request` resolves.
-/

/-- Dictionary values exchanged with the backends, a JSON-like type
mirroring Python dict/list/str/int/bool/None payloads. -/
inductive JValue
  | null
  | bool (b : Bool)
  | num (n : Int)
  | str (s : String)
  | arr (elems : List JValue)
  | obj (fields : List (String × JValue))

/-- Python truthiness of a `JValue` (`None`, `0`, `""`, `[]` and
empty dicts are falsy). -/
def JValue.truthy : JValue → Bool
  | .null => false
  | .bool b => b
  | .num n => n != 0
  | .str s => s != ""
  | .arr l => !l.isEmpty
  | .obj l => !l.isEmpty

/-- Top-level dictionaries (`Dict[str, Any]` in the source). -/
abbrev JDict := List (String × JValue)

/-- Python `d.get(k)`: `None` when the key is absent. -/
def dictGet (d : JDict) (k : String) : JValue :=
  (List.lookup k d).getD JValue.null

/-- Python `d.get(k, default)`. -/
def dictGetD (d : JDict) (k : String) (default : JValue) : JValue :=
  (List.lookup k d).getD default

/-- Python truthiness of an `Optional[Dict]` (absent or empty is falsy). -/
def dictTruthy : Option JDict → Bool
  | none => false
  | some d => !d.isEmpty

/-- Python `str()` rendering used by f-string interpolation of dict
values (only flat values are interpolated by the source). -/
def jsonStr : JValue → String
  | .null => "None"
  | .bool true => "True"
  | .bool false => "False"
  | .num n => toString n
  | .str s => s
  | .arr _ => "[...]"
  | .obj _ => "..."

/-- Python dict assignment `d[k] = v`: replace in place or append. -/
def insertAssoc (d : List (String × α)) (k : String) (v : α) :
    List (String × α) :=
  match d with
  | [] => [(k, v)]
  | p :: ps => if p.1 = k then (k, v) :: ps else p :: insertAssoc ps k v

/-- Whether the first list starts with the second. -/
def listStartsWith [DecidableEq α] : List α → List α → Bool
  | _, [] => true
  | [], _ :: _ => false
  | a :: as, b :: bs => a = b && listStartsWith as bs

/-- Whether the second list occurs as a contiguous sublist of the
first. -/
def containsSublist [DecidableEq α] : List α → List α → Bool
  | [], pat => pat.isEmpty
  | l :: rest, pat => listStartsWith (l :: rest) pat || containsSublist rest pat

/-- Python `pat in s` substring test. -/
def strContains (s pat : String) : Bool :=
  containsSublist s.data pat.data

/-- Helper for Python `s.split(sep)` with a one-character separator:
`acc` holds the reversed characters of the current field. -/
def splitCharAux (sep : Char) : List Char → List Char → List String
  | [], acc => [String.mk acc.reverse]
  | c :: cs, acc =>
      if c = sep then String.mk acc.reverse :: splitCharAux sep cs []
      else splitCharAux sep cs (c :: acc)

/-- Python `endpoint.split("/")`. -/
def pySplitSlash (s : String) : List String :=
  splitCharAux '/' s.data []

/-- Python `lst[-1]` on a split result (split results are never
empty). -/
def pyLast (l : List String) : String :=
  l.getLastD ""

/-- Decidable equality on modelled exception results, used to evaluate
closed statements about breaker-mediated calls. -/
instance {ε α : Type} [DecidableEq ε] [DecidableEq α] :
    DecidableEq (Except ε α) := fun a b =>
  match a, b with
  | .ok x, .ok y =>
      if h : x = y then .isTrue (congrArg Except.ok h)
      else .isFalse (fun hh => h (Except.ok.inj hh))
  | .error x, .error y =>
      if h : x = y then .isTrue (congrArg Except.error h)
      else .isFalse (fun hh => h (Except.error.inj hh))
  | .ok _, .error _ => .isFalse (fun hh => nomatch hh)
  | .error _, .ok _ => .isFalse (fun hh => nomatch hh)

/-! ## Circuit breaker (`CircuitBreaker`, integration.py lines 58-91) -/

/-- Breaker state strings `"closed"`, `"open"`, `"half-open"`. -/
inductive BreakerState
  | closed
  | opened
  | halfOpen
  deriving DecidableEq, Repr

/-- State of `CircuitBreaker.__init__` (defaults 5 / 60 as in the
source). -/
structure CircuitBreaker where
  failure_threshold : Nat := 5
  timeout : Nat := 60
  failure_count : Nat := 0
  last_failure_time : Option Nat := none
  state : BreakerState := .closed
  deriving DecidableEq, Repr

/-- Body of the `try/except` block of `CircuitBreaker.call`: the wrapped
operation has been allowed to run and resolved to `op`.  Returns the
surfaced result, the new breaker state, and `true` (the operation was
invoked). -/
def CircuitBreaker.runBody (cb : CircuitBreaker) (now : Nat)
    (op : Except String α) : Except String α × CircuitBreaker × Bool :=
  match op with
  | .ok v =>
      if cb.state = .halfOpen then
        (.ok v, { cb with state := .closed, failure_count := 0 }, true)
      else
        (.ok v, cb, true)
  | .error e =>
      let fc := cb.failure_count + 1
      (.error e,
       { cb with
           failure_count := fc,
           last_failure_time := some now,
           state := if cb.failure_threshold ≤ fc then .opened else cb.state },
       true)

/-- `CircuitBreaker.call`: the open-state gate followed by the
`try/except` body.  `op` is how the wrapped coroutine would resolve if
invoked now; the third component records whether it was invoked. -/
def CircuitBreaker.call (cb : CircuitBreaker) (now : Nat)
    (op : Except String α) : Except String α × CircuitBreaker × Bool :=
  if cb.state = .opened then
    match cb.last_failure_time with
    | some t =>
        if cb.timeout < now - t then
          CircuitBreaker.runBody { cb with state := .halfOpen } now op
        else
          (.error "Circuit breaker is open", cb, false)
    | none =>
        -- unreachable from reachable states (the breaker only opens after
        -- a failure has set `last_failure_time`); Python would raise a
        -- TypeError subtracting `None` here
        (.error "TypeError", cb, false)
  else
    CircuitBreaker.runBody cb now op

/-- Sequence of calls through one breaker: each element gives the call
instant and how the wrapped operation would resolve. -/
def CircuitBreaker.runCalls (cb : CircuitBreaker)
    (calls : List (Nat × Except String Unit)) : CircuitBreaker :=
  match calls with
  | [] => cb
  | (now, op) :: rest => ((cb.call now op).2.1).runCalls rest

/-- Invariant tying a breaker to the number `k` of failures recorded so
far when every call so far has failed: either still closed counting
exactly `k < threshold` failures, or opened with at least `threshold`
recorded failures and a recorded failure time. -/
def BreakerInv (thr : Nat) (cb : CircuitBreaker) (k : Nat) : Prop :=
  cb.failure_threshold = thr ∧
  ((cb.state = .closed ∧ cb.failure_count = k ∧ k < thr) ∨
   (cb.state = .opened ∧ thr ≤ cb.failure_count ∧
    ∃ t, cb.last_failure_time = some t))

theorem breakerInv_step (thr k now : Nat) (cb : CircuitBreaker)
    (op : Except String Unit) (hop : op.isOk = false)
    (h : BreakerInv thr cb k) :
    BreakerInv thr (cb.call now op).2.1 (k + 1) := by
  obtain ⟨hthr, hcase⟩ := h
  obtain ⟨e, rfl⟩ : ∃ e, op = .error e := by
    cases op with
    | ok v => simp [Except.isOk, Except.toBool] at hop
    | error e => exact ⟨e, rfl⟩
  rcases hcase with ⟨hs, hc, hk⟩ | ⟨hs, hc, t, ht⟩
  · -- closed: the gate lets the call through and the body records a failure
    rw [CircuitBreaker.call, if_neg (by rw [hs]; exact fun h => nomatch h)]
    rw [CircuitBreaker.runBody]
    refine ⟨hthr, ?_⟩
    by_cases hth : cb.failure_threshold ≤ cb.failure_count + 1
    · exact Or.inr ⟨by simp [hth], by simpa [hthr] using hth, now, rfl⟩
    · refine Or.inl ⟨by simp [hth, hs], by simp [hc], ?_⟩
      rw [hthr] at hth
      omega
  · -- opened: either rejected unchanged, or the half-open trial fails
    rw [CircuitBreaker.call, if_pos hs, ht]
    by_cases hel : cb.timeout < now - t
    · simp only [if_pos hel, CircuitBreaker.runBody]
      refine ⟨hthr, Or.inr ⟨?_, ?_, now, rfl⟩⟩
      · show (if cb.failure_threshold ≤ cb.failure_count + 1 then
            BreakerState.opened else BreakerState.halfOpen) = .opened
        rw [if_pos (by omega)]
      · show thr ≤ cb.failure_count + 1
        omega
    · simp only [if_neg hel]
      exact ⟨hthr, Or.inr ⟨hs, hc, t, ht⟩⟩

theorem breakerInv_runCalls (thr : Nat)
    (calls : List (Nat × Except String Unit))
    (hfail : ∀ c ∈ calls, c.2.isOk = false) :
    ∀ k, ∀ cb : CircuitBreaker, BreakerInv thr cb k →
      BreakerInv thr (cb.runCalls calls) (k + calls.length) := by
  induction calls with
  | nil => intro k cb h; simpa [CircuitBreaker.runCalls] using h
  | cons c rest ih =>
      intro k cb h
      rw [CircuitBreaker.runCalls]
      have h1 := breakerInv_step thr k c.1 cb c.2
        (hfail c (List.mem_cons_self c rest)) h
      have h2 := ih (fun d hd => hfail d (List.mem_cons_of_mem c hd))
        (k + 1) _ h1
      simpa [Nat.add_comm, Nat.add_assoc, Nat.add_left_comm] using h2

theorem call_preserves_config {α : Type} (cb : CircuitBreaker) (now : Nat)
    (op : Except String α) :
    ((cb.call now op).2.1).timeout = cb.timeout ∧
    ((cb.call now op).2.1).failure_threshold = cb.failure_threshold := by
  have hbody : ∀ cb2 : CircuitBreaker,
      ((cb2.runBody now op).2.1).timeout = cb2.timeout ∧
      ((cb2.runBody now op).2.1).failure_threshold = cb2.failure_threshold := by
    intro cb2
    cases op with
    | ok v =>
        rw [CircuitBreaker.runBody]
        split <;> exact ⟨rfl, rfl⟩
    | error e => exact ⟨rfl, rfl⟩
  rw [CircuitBreaker.call]
  split
  · split
    · split
      · exact hbody _
      · exact ⟨rfl, rfl⟩
    · exact ⟨rfl, rfl⟩
  · exact hbody _

theorem runCalls_preserves_config (cb : CircuitBreaker)
    (calls : List (Nat × Except String Unit)) :
    ((cb.runCalls calls)).timeout = cb.timeout ∧
    ((cb.runCalls calls)).failure_threshold = cb.failure_threshold := by
  induction calls generalizing cb with
  | nil => exact ⟨rfl, rfl⟩
  | cons c rest ih =>
      rw [CircuitBreaker.runCalls]
      have h1 := call_preserves_config cb c.1 c.2
      have h2 := ih ((cb.call c.1 c.2).2.1)
      exact ⟨h2.1.trans h1.1, h2.2.trans h1.2⟩

/-- C2: for every sequence of N consecutive failing calls through one
circuit breaker with N ≥ failure_threshold, the breaker ends OPEN, and a
further call made before cool_down has elapsed since the last recorded
failure is rejected with the "Circuit breaker is open" error without the
wrapped operation being invoked. -/
theorem claim_C2 (thr tmo : Nat) (hthr : 0 < thr)
    (calls : List (Nat × Except String Unit))
    (hfail : ∀ c ∈ calls, c.2.isOk = false)
    (hN : thr ≤ calls.length) (now t : Nat) (op : Except String Unit) :
    let cb0 : CircuitBreaker := { failure_threshold := thr, timeout := tmo }
    let cb1 := cb0.runCalls calls
    cb1.state = .opened ∧
    (cb1.last_failure_time = some t → now - t ≤ tmo →
      cb1.call now op = (.error "Circuit breaker is open", cb1, false)) := by
  intro cb0 cb1
  have hinv0 : BreakerInv thr cb0 0 := ⟨rfl, Or.inl ⟨rfl, rfl, hthr⟩⟩
  have hinv := breakerInv_runCalls thr calls hfail 0 cb0 hinv0
  have hcfg := runCalls_preserves_config cb0 calls
  obtain ⟨hthr1, hcase⟩ := hinv
  have hopen : cb1.state = .opened := by
    rcases hcase with ⟨_, _, hk⟩ | ⟨hs, _, _⟩
    · exact absurd hk (by omega)
    · exact hs
  refine ⟨hopen, fun hlast hle => ?_⟩
  rw [CircuitBreaker.call, if_pos hopen, hlast]
  simp only [if_neg (show ¬ cb1.timeout < now - t by
    rw [hcfg.1]; show ¬ tmo < now - t; omega)]

theorem claim_C2_witness :
    (let cb0 : CircuitBreaker := { failure_threshold := 5, timeout := 60 }
     let cb1 := cb0.runCalls
       [(0, .error "e"), (1, .error "e"), (2, .error "e"),
        (3, .error "e"), (4, .error "e")]
     cb1.state = .opened ∧
     (cb1.last_failure_time = some 4 → 10 - 4 ≤ 60 →
       cb1.call 10 (.ok ()) = (.error "Circuit breaker is open", cb1, false))) :=
  claim_C2 5 60 (by decide)
    [(0, .error "e"), (1, .error "e"), (2, .error "e"),
     (3, .error "e"), (4, .error "e")]
    (by decide) (by decide) 10 4 (.ok ())

/-- C3 counterexample: from a fresh breaker, five failures interleaved
with successes still open the circuit (the claim says only an unbroken
run can), and a success following a failure leaves `failure_count` at 1
(the claim says every success in CLOSED resets it to 0). -/
theorem claim_C3_counterexample :
    (CircuitBreaker.runCalls {}
      [(0, .error "e"), (1, .ok ()), (2, .error "e"), (3, .ok ()),
       (4, .error "e"), (5, .ok ()), (6, .error "e"), (7, .ok ()),
       (8, .error "e")]).state = .opened ∧
    (CircuitBreaker.runCalls {} [(0, .error "e"), (1, .ok ())]).failure_count
      = 1 := by
  decide

/-- C3 (amended): in the CLOSED state a successful call leaves the
breaker completely unchanged — in particular `failure_count` is NOT
reset to 0 (the counter is reset only when a HALF_OPEN trial call
succeeds), so failure_threshold failures interleaved with successes can
also transition the breaker from CLOSED to OPEN. -/
theorem claim_C3 {α : Type} (cb : CircuitBreaker) (now : Nat) (v : α)
    (h : cb.state = .closed) :
    cb.call now (.ok v) = (.ok v, cb, true) := by
  rw [CircuitBreaker.call, if_neg (by simp [h])]
  simp [CircuitBreaker.runBody, h]

theorem claim_C3_witness :
    CircuitBreaker.call {} 0 (Except.ok ()) = (.ok (), {}, true) :=
  claim_C3 {} 0 () rfl

/-- C4 counterexample: a breaker that has been OPEN for exactly
cool_down = 60 seconds since `last_failure_at` (so "at least cool_down
seconds" holds) still rejects the next call without attempting the
operation: the code requires strictly more than cool_down to elapse. -/
theorem claim_C4_counterexample :
    (CircuitBreaker.runCalls {}
       [(0, .error "e"), (0, .error "e"), (0, .error "e"),
        (0, .error "e"), (0, .error "e")]).state = .opened ∧
    (CircuitBreaker.runCalls {}
       [(0, .error "e"), (0, .error "e"), (0, .error "e"),
        (0, .error "e"), (0, .error "e")]).last_failure_time = some 0 ∧
    (CircuitBreaker.runCalls {}
       [(0, .error "e"), (0, .error "e"), (0, .error "e"),
        (0, .error "e"), (0, .error "e")]).timeout = 60 ∧
    (CircuitBreaker.runCalls {}
       [(0, .error "e"), (0, .error "e"), (0, .error "e"),
        (0, .error "e"), (0, .error "e")]).call 60 (Except.ok ())
      = (.error "Circuit breaker is open",
         CircuitBreaker.runCalls {}
           [(0, .error "e"), (0, .error "e"), (0, .error "e"),
            (0, .error "e"), (0, .error "e")], false) := by
  decide

/-- C4 (amended): for a breaker that has been OPEN for strictly more
than cool_down seconds since `last_failure_at`, the next call is
attempted: on success the breaker becomes CLOSED with `failure_count`
reset to 0; on failure it returns to OPEN with `last_failure_time`
refreshed to the time of that failure.  (The hypothesis
`failure_threshold ≤ failure_count` holds in every reachable OPEN
state, cf. `BreakerInv`.) -/
theorem claim_C4 {α : Type} (cb : CircuitBreaker) (now t : Nat)
    (hs : cb.state = .opened) (ht : cb.last_failure_time = some t)
    (hel : cb.timeout < now - t)
    (hc : cb.failure_threshold ≤ cb.failure_count) :
    (∀ v : α, cb.call now (.ok v)
       = (.ok v, { cb with state := .closed, failure_count := 0 }, true)) ∧
    (∀ e : String, cb.call now (Except.error e : Except String α)
       = (.error e,
          { cb with failure_count := cb.failure_count + 1,
                    last_failure_time := some now, state := .opened }, true)) := by
  constructor
  · intro v
    rw [CircuitBreaker.call, if_pos hs, ht]
    simp [if_pos hel, CircuitBreaker.runBody]
  · intro e
    rw [CircuitBreaker.call, if_pos hs, ht]
    simp [if_pos hel, CircuitBreaker.runBody,
      show cb.failure_threshold ≤ cb.failure_count + 1 by omega]

theorem claim_C4_witness :
    (CircuitBreaker.call
       { failure_count := 5, last_failure_time := some 0, state := .opened }
       61 (Except.ok ())
     = (.ok (),
        { failure_count := 0, last_failure_time := some 0, state := .closed },
        true)) ∧
    (CircuitBreaker.call
       { failure_count := 5, last_failure_time := some 0, state := .opened }
       61 (Except.error "e" : Except String Unit)
     = (.error "e",
        { failure_count := 6, last_failure_time := some 61, state := .opened },
        true)) :=
  ⟨(claim_C4
      { failure_count := 5, last_failure_time := some 0, state := .opened }
      61 0 rfl rfl (by decide) (by decide)).1 (),
   (claim_C4
      { failure_count := 5, last_failure_time := some 0, state := .opened }
      61 0 rfl rfl (by decide) (by decide)).2 "e"⟩

/-! ## Base service: cache and `_make_request`
(`BaseService`, integration.py lines 94-217) -/

/-- Standardized API response (`APIResponse` dataclass); `response_time`
is omitted (wall-clock telemetry). -/
structure APIResponse where
  success : Bool
  data : Option JDict := none
  error : Option String := none
  status_code : Option Nat := none
  cached : Bool := false

/-- One stored cache entry (a dict with `data` and `timestamp`). -/
structure CacheEntry where
  data : JDict
  timestamp : Nat

/-- Mutable state of a `BaseService` instance (`__init__`, lines
97-102); `base_url` is stored already stripped of trailing slashes. -/
structure BaseService where
  base_url : String
  api_key : Option String := none
  circuit_breaker : CircuitBreaker := {}
  cache : List (String × CacheEntry) := []
  cache_ttl : Nat := 300

/-- `BaseService.__init__`: strips trailing `/` from the base URL. -/
def BaseService.init (base_url : String) (api_key : Option String) :
    BaseService :=
  { base_url := base_url.dropRightWhile (fun c => c = '/'),
    api_key := api_key }

/-- Rendering of a flat JSON value inside `json.dumps` output (the
source only ever passes strings and ints as query parameters). -/
def JValue.dumpFlat : JValue → String
  | .null => "null"
  | .bool true => "true"
  | .bool false => "false"
  | .num n => toString n
  | .str s => "\"" ++ s ++ "\""
  | .arr _ => "[...]"
  | .obj _ => "..."

/-- Insertion into a key-sorted parameter list (for
`json.dumps(params, sort_keys=True)`). -/
def insertSortedParam (p : String × JValue) :
    List (String × JValue) → List (String × JValue)
  | [] => [p]
  | q :: qs => if p.1 < q.1 then p :: q :: qs else q :: insertSortedParam p qs

/-- Key-sorted copy of a parameter dict. -/
def sortParams : List (String × JValue) → List (String × JValue)
  | [] => []
  | p :: ps => insertSortedParam p (sortParams ps)

/-- `json.dumps(params, sort_keys=True)`. -/
def dumpParams (ps : List (String × JValue)) : String :=
  "\x7b" ++ String.intercalate ", "
    ((sortParams ps).map (fun p => "\"" ++ p.1 ++ "\": " ++ p.2.dumpFlat))
  ++ "\x7d"

/-- `BaseService._get_cache_key` (lines 116-121): base URL plus endpoint
plus, when `params` is truthy, the sorted JSON dump of the parameters. -/
def getCacheKey (base_url endpoint : String)
    (params : Option (List (String × JValue))) : String :=
  let key := base_url ++ endpoint
  match params with
  | some ps => if !ps.isEmpty then key ++ "?" ++ dumpParams ps else key
  | none => key

/-- `BaseService._is_cache_valid` (lines 123-132).  The source computes
`(datetime.now() - timestamp).seconds < self.cache_ttl`: the `.seconds`
attribute of a timedelta is its normalized seconds-within-a-day
component, i.e. the total elapsed seconds modulo 86400 — NOT the total
elapsed time.  (The stored `timestamp` is always a truthy datetime, so
the `if not timestamp` guard never fires for stored entries.) -/
def isCacheValid (cache_ttl now : Nat) (cache_entry : Option CacheEntry) :
    Bool :=
  match cache_entry with
  | none => false
  | some e => (now - e.timestamp) % 86400 < cache_ttl

/-- Python `str.upper()` (character-wise uppercase; the methods passed
here are plain ASCII strings such as "GET", "PUT", "POST"). -/
def pyUpper (s : String) : String :=
  String.mk (s.data.map Char.toUpper)

/-- Resolution of the single outbound HTTP attempt made by
`_make_request`: an HTTP response with a status, parsed JSON body and
error text, or one of the caught exception classes. -/
inductive HttpOutcome
  | response (status : Nat) (body : JDict) (text : String)
  | timeout
  | clientError (msg : String)
  | otherError (msg : String)

/-- Network part of `BaseService._make_request` (lines 155-212): the
`try/except` around the live HTTP call.  Returns the `APIResponse` and
the (possibly refreshed) cache. -/
def BaseService.networkRequest (svc : BaseService) (now : Nat)
    (method endpoint : String) (params : Option (List (String × JValue)))
    (use_cache : Bool) (outcome : HttpOutcome) :
    APIResponse × List (String × CacheEntry) :=
  match outcome with
  | .response status body text =>
      if status == 200 then
        let newCache :=
          if (pyUpper method == "GET") && use_cache then
            insertAssoc svc.cache (getCacheKey svc.base_url endpoint params)
              { data := body, timestamp := now }
          else svc.cache
        ({ success := true, data := some body, status_code := some status },
         newCache)
      else
        ({ success := false,
           error := some ("HTTP " ++ toString status ++ ": " ++ text),
           status_code := some status }, svc.cache)
  | .timeout =>
      ({ success := false, error := some "Request timeout" }, svc.cache)
  | .clientError m =>
      ({ success := false, error := some ("Client error: " ++ m) }, svc.cache)
  | .otherError m =>
      ({ success := false, error := some ("Unexpected error: " ++ m) },
       svc.cache)

/-- `BaseService._make_request` (lines 134-212): cache check for GET
requests, then the live request.  Every caught exception is converted
into a returned `APIResponse` with `success := false` — the function
never raises.  (The request body `data` only travels on the wire and
does not influence the modelled control flow.) -/
def BaseService.makeRequest (svc : BaseService) (now : Nat)
    (method endpoint : String)
    (params data : Option (List (String × JValue))) (use_cache : Bool)
    (outcome : HttpOutcome) : APIResponse × List (String × CacheEntry) :=
  if (pyUpper method == "GET") && use_cache then
    let cache_key := getCacheKey svc.base_url endpoint params
    let cached_response := List.lookup cache_key svc.cache
    if isCacheValid svc.cache_ttl now cached_response then
      ({ success := true, data := Option.map CacheEntry.data cached_response,
         cached := true }, svc.cache)
    else
      svc.networkRequest now method endpoint params use_cache outcome
  else
    svc.networkRequest now method endpoint params use_cache outcome

/-- Adapter call pattern `circuit_breaker.call(self._make_request, ...)`.
In the source `_make_request` catches every exception internally and
returns normally, so the coroutine handed to the breaker always
resolves to `Except.ok`; the cache side effect happens only when the
breaker actually invokes the operation. -/
def BaseService.requestViaBreaker (svc : BaseService) (now : Nat)
    (method endpoint : String)
    (params data : Option (List (String × JValue))) (use_cache : Bool)
    (outcome : HttpOutcome) : Except String APIResponse × BaseService :=
  let r := svc.makeRequest now method endpoint params data use_cache outcome
  let c := svc.circuit_breaker.call now (Except.ok r.1)
  let newCache := if c.2.2 then r.2 else svc.cache
  (c.1, { svc with circuit_breaker := c.2.1, cache := newCache })

/-- Whether a surfaced adapter result was served from cache (false for a
raised exception). -/
def cachedFlag : Except String APIResponse → Bool
  | .ok r => r.cached
  | .error _ => false

theorem call_ok_closed {α : Type} (cb : CircuitBreaker) (now : Nat) (v : α)
    (h : cb.state = .closed) : cb.call now (.ok v) = (.ok v, cb, true) := by
  rw [CircuitBreaker.call, if_neg (by simp [h])]
  simp [CircuitBreaker.runBody, h]

theorem call_error_closed {α : Type} (cb : CircuitBreaker) (now : Nat)
    (e : String) (h : cb.state = .closed) :
    ((cb.call now (Except.error e : Except String α)).2.1).failure_count
      = cb.failure_count + 1 := by
  rw [CircuitBreaker.call, if_neg (by simp [h])]
  rfl

theorem cachedFlag_call_ok (cb : CircuitBreaker) (now : Nat)
    (r : APIResponse) (h : r.cached = false) :
    cachedFlag ((cb.call now (Except.ok r)).1) = false := by
  have hbody : ∀ cb2 : CircuitBreaker,
      cachedFlag ((cb2.runBody now (Except.ok r)).1) = false := by
    intro cb2
    rw [CircuitBreaker.runBody]
    split <;> simpa [cachedFlag] using h
  rw [CircuitBreaker.call]
  split
  · split
    · split
      · exact hbody _
      · rfl
    · rfl
  · exact hbody _

/-! ## Mutating adapter operations
(`OrderService.update_order_status` lines 278-285,
`InventoryService.reserve_inventory` lines 344-351) -/

/-- `OrderService.update_order_status`: a PUT routed through the
breaker, with no try/except of its own. -/
def OrderService.update_order_status (svc : BaseService) (now : Nat)
    (order_number status : String) (outcome : HttpOutcome) :
    Except String APIResponse × BaseService :=
  svc.requestViaBreaker now "PUT" ("/orders/" ++ order_number ++ "/status")
    none (some [("status", JValue.str status)]) true outcome

/-- `InventoryService.reserve_inventory`: a POST routed through the
breaker, with no try/except of its own. -/
def InventoryService.reserve_inventory (svc : BaseService) (now : Nat)
    (product_id : String) (quantity : Int) (outcome : HttpOutcome) :
    Except String APIResponse × BaseService :=
  svc.requestViaBreaker now "POST" ("/inventory/" ++ product_id ++ "/reserve")
    none (some [("quantity", JValue.num quantity)]) true outcome

theorem networkRequest_snd_mutating (svc : BaseService) (now : Nat)
    (method endpoint : String) (params : Option (List (String × JValue)))
    (uc : Bool) (outcome : HttpOutcome)
    (hm : ((pyUpper method == "GET") && uc) = false) :
    (svc.networkRequest now method endpoint params uc outcome).2 = svc.cache := by
  cases outcome <;>
    simp [BaseService.networkRequest, hm, apply_ite (Prod.snd)]

theorem networkRequest_fst_cache (svc : BaseService)
    (c : List (String × CacheEntry)) (now : Nat) (method endpoint : String)
    (params : Option (List (String × JValue))) (uc : Bool)
    (outcome : HttpOutcome) :
    (({ svc with cache := c } : BaseService).networkRequest
        now method endpoint params uc outcome).1
      = (svc.networkRequest now method endpoint params uc outcome).1 := by
  cases outcome <;>
    simp [BaseService.networkRequest, apply_ite (Prod.fst)]

theorem networkRequest_cached_false (svc : BaseService) (now : Nat)
    (method endpoint : String) (params : Option (List (String × JValue)))
    (uc : Bool) (outcome : HttpOutcome) :
    ((svc.networkRequest now method endpoint params uc outcome).1).cached
      = false := by
  cases outcome <;>
    simp [BaseService.networkRequest, apply_ite (Prod.fst),
      apply_ite (APIResponse.cached)]

theorem requestViaBreaker_mutating (svc : BaseService) (now : Nat)
    (method endpoint : String)
    (params data : Option (List (String × JValue))) (uc : Bool)
    (outcome : HttpOutcome) (c : List (String × CacheEntry))
    (hm : ((pyUpper method == "GET") && uc) = false) :
    (svc.requestViaBreaker now method endpoint params data uc outcome).2.cache
      = svc.cache ∧
    (({ svc with cache := c } : BaseService).requestViaBreaker
        now method endpoint params data uc outcome).1
      = (svc.requestViaBreaker now method endpoint params data uc outcome).1 ∧
    cachedFlag
      ((svc.requestViaBreaker now method endpoint params data uc outcome).1)
      = false := by
  have h1 := networkRequest_snd_mutating svc now method endpoint params uc
    outcome hm
  have h2 := networkRequest_fst_cache svc c now method endpoint params uc
    outcome
  have h3 := networkRequest_cached_false svc now method endpoint params uc
    outcome
  refine ⟨?_, ?_, ?_⟩
  · simp [BaseService.requestViaBreaker, BaseService.makeRequest, hm, h1]
  · simp [BaseService.requestViaBreaker, BaseService.makeRequest, hm, h2]
  · simp [BaseService.requestViaBreaker, BaseService.makeRequest, hm,
      cachedFlag_call_ok _ _ _ h3]

/-- C1 counterexample: from a fresh service (breaker CLOSED with
`failure_count = 0`), a wrapped GET whose HTTP attempt times out is
surfaced as a returned `success := false` result, yet the breaker's
failure counter stays 0 and the state stays CLOSED — the claim says the
timeout increments `consecutive_failures`.  The same happens for a
non-2xx HTTP response. -/
theorem claim_C1_counterexample :
    ((BaseService.init "https://api.example.com/orders" none).requestViaBreaker
        0 "GET" "/orders/AB1" none none true .timeout).1
      = .ok { success := false, error := some "Request timeout" } ∧
    ((BaseService.init "https://api.example.com/orders" none).requestViaBreaker
        0 "GET" "/orders/AB1" none none true .timeout).2.circuit_breaker.failure_count
      = 0 ∧
    ((BaseService.init "https://api.example.com/orders" none).requestViaBreaker
        0 "GET" "/orders/AB1" none none true
        (.response 500 [] "err")).1
      = .ok { success := false, error := some "HTTP 500: err",
              status_code := some 500 } ∧
    ((BaseService.init "https://api.example.com/orders" none).requestViaBreaker
        0 "GET" "/orders/AB1" none none true
        (.response 500 [] "err")).2.circuit_breaker.state
      = .closed :=
  ⟨rfl, rfl, rfl, rfl⟩

/-- C1 (amended): a request timeout and a non-2xx HTTP response are
surfaced to the caller as normally-returned results with
`success := false` and an `error` message, but they do NOT count toward
the breaker's failure counter: `_make_request` catches them internally
and returns, so the wrapped coroutine resolves successfully and the
breaker state is left unchanged.  The counter increments exactly when
the wrapped operation itself raises an exception. -/
theorem claim_C1 (svc : BaseService) (now : Nat) (method endpoint : String)
    (params data : Option (List (String × JValue)))
    (status : Nat) (body : JDict) (text : String)
    (hstate : svc.circuit_breaker.state = .closed) (hst : status ≠ 200) :
    ((svc.requestViaBreaker now method endpoint params data false .timeout).1
       = .ok { success := false, error := some "Request timeout" } ∧
     (svc.requestViaBreaker now method endpoint params data false
        .timeout).2.circuit_breaker = svc.circuit_breaker) ∧
    ((svc.requestViaBreaker now method endpoint params data false
        (.response status body text)).1
       = .ok { success := false,
               error := some ("HTTP " ++ toString status ++ ": " ++ text),
               status_code := some status } ∧
     (svc.requestViaBreaker now method endpoint params data false
        (.response status body text)).2.circuit_breaker
       = svc.circuit_breaker) ∧
    (∀ e : String,
      ((svc.circuit_breaker.call now
          (Except.error e : Except String APIResponse)).2.1).failure_count
        = svc.circuit_breaker.failure_count + 1) := by
  have hbeq : (status == 200) = false := by
    simpa using hst
  refine ⟨⟨?_, ?_⟩, ⟨?_, ?_⟩, fun e => call_error_closed _ _ _ hstate⟩ <;>
    simp [BaseService.requestViaBreaker, BaseService.makeRequest,
      BaseService.networkRequest, hbeq, call_ok_closed _ _ _ hstate]

theorem claim_C1_witness :
    ((BaseService.init "https://x" none).requestViaBreaker
        0 "GET" "/o" none none false .timeout).1
      = .ok { success := false, error := some "Request timeout" } ∧
    (((BaseService.init "https://x" none).circuit_breaker.call 0
        (Except.error "boom" : Except String APIResponse)).2.1).failure_count
      = (BaseService.init "https://x" none).circuit_breaker.failure_count + 1 :=
  ⟨((claim_C1 (BaseService.init "https://x" none) 0 "GET" "/o" none none
      500 [] "t" rfl (by decide)).1).1,
   (claim_C1 (BaseService.init "https://x" none) 0 "GET" "/o" none none
      500 [] "t" rfl (by decide)).2.2 "boom"⟩

/-- C5 (code bug): the source computes cache validity as
`(now - stored_at).seconds < ttl`, i.e. the elapsed time modulo 86400
seconds, not the total elapsed time.  At an entry age of exactly one day
(86400 s, far beyond ttl = 300 s) the entry is served from cache with no
network call and no refresh, where the claim (and the spec's
`now - stored_at < ttl` rule, spec section 3) requires a network call
that refreshes the entry. -/
theorem claim_C5_code_bug :
    300 ≤ 86400 - (0 : Nat) ∧
    isCacheValid 300 86400
      (some { data := [("status", JValue.str "shipped")], timestamp := 0 })
      = true ∧
    (let svc : BaseService :=
      { base_url := "https://api.example.com",
        cache := [(getCacheKey "https://api.example.com" "/orders/AB1" none,
                   { data := [("status", JValue.str "shipped")],
                     timestamp := 0 })] }
     let r := svc.makeRequest 86400 "GET" "/orders/AB1" none none true
       (.response 200 [("status", JValue.str "delivered")] "")
     r.1.cached = true ∧
     r.1.data = some [("status", JValue.str "shipped")] ∧
     r.2 = svc.cache) :=
  ⟨by norm_num, rfl, rfl, rfl, rfl⟩

/-- C6: mutating calls — the order-status update (PUT) and the inventory
reservation (POST) — leave the cache map unchanged, produce the same
surfaced result for every prior cache state (they never read the cache),
and are never served from cache. -/
theorem claim_C6 (svc : BaseService) (now : Nat) (a b : String) (q : Int)
    (outcome : HttpOutcome) (c : List (String × CacheEntry)) :
    ((OrderService.update_order_status svc now a b outcome).2.cache
       = svc.cache ∧
     (OrderService.update_order_status { svc with cache := c } now a b
        outcome).1
       = (OrderService.update_order_status svc now a b outcome).1 ∧
     cachedFlag ((OrderService.update_order_status svc now a b outcome).1)
       = false) ∧
    ((InventoryService.reserve_inventory svc now a q outcome).2.cache
       = svc.cache ∧
     (InventoryService.reserve_inventory { svc with cache := c } now a q
        outcome).1
       = (InventoryService.reserve_inventory svc now a q outcome).1 ∧
     cachedFlag ((InventoryService.reserve_inventory svc now a q outcome).1)
       = false) :=
  ⟨requestViaBreaker_mutating svc now "PUT" ("/orders/" ++ a ++ "/status")
     none (some [("status", JValue.str b)]) true outcome c (by decide),
   requestViaBreaker_mutating svc now "POST"
     ("/inventory/" ++ a ++ "/reserve")
     none (some [("quantity", JValue.num q)]) true outcome c (by decide)⟩

/-! ## Order lookup adapter
(`OrderService.get_order` lines 223-261, `_format_order_details` lines
263-276, `MockService._make_request` lines 539-587) -/

/-- `OrderService._format_order_details`: assembles the detail string
from whichever optional fields are truthy. -/
def format_order_details (order_data : JDict) : String :=
  let details :=
    (if (dictGet order_data "estimated_delivery").truthy then
      ["Estimated delivery: " ++ jsonStr (dictGet order_data "estimated_delivery")]
     else []) ++
    (if (dictGet order_data "tracking_number").truthy then
      ["Tracking: " ++ jsonStr (dictGet order_data "tracking_number")]
     else []) ++
    (if (dictGet order_data "shipping_address").truthy then
      ["Shipping to: " ++ jsonStr (dictGet order_data "shipping_address")]
     else [])
  if !details.isEmpty then String.intercalate " | " details
  else "No additional details available."

/-- `OrderService.get_order`: a GET through cache and breaker, then
normalization.  The outer `try/except` turns any raised exception
(including the breaker-open rejection) into a returned
`success := false` response, so the adapter itself never raises. -/
def OrderService.get_order (svc : BaseService) (now : Nat)
    (order_number : String) (customer_id : Option String)
    (outcome : HttpOutcome) : APIResponse × BaseService :=
  let endpoint := "/orders/" ++ order_number
  let params : List (String × JValue) :=
    match customer_id with
    | some cid => [("customer_id", JValue.str cid)]
    | none => []
  let r := svc.requestViaBreaker now "GET" endpoint (some params) none true
    outcome
  match r.1 with
  | .error e => ({ success := false, error := some e }, r.2)
  | .ok response =>
      if response.success && dictTruthy response.data then
        let order_data := response.data.getD []
        let transformed_data : JDict :=
          [("order_info", JValue.obj
            [("found", JValue.bool true),
             ("order_number",
              dictGetD order_data "order_number" (JValue.str order_number)),
             ("status", dictGetD order_data "status" (JValue.str "unknown")),
             ("additional_info",
              JValue.str (format_order_details order_data))])]
        ({ success := true, data := some transformed_data }, r.2)
      else
        ({ success := true,
           data := some [("order_info",
             JValue.obj [("found", JValue.bool false)])],
           error := some "Order not found" }, r.2)

/-- Fixed mock dataset of `MockService.__init__`: the orders table. -/
def MockService.mock_orders : List (String × JDict) :=
  [("AB12345678",
    [("order_number", JValue.str "AB12345678"),
     ("status", JValue.str "shipped"),
     ("estimated_delivery", JValue.str "Tomorrow"),
     ("tracking_number", JValue.str "TRK123456789"),
     ("shipping_address", JValue.str "123 Main St, Anytown, USA")])]

/-- Fixed mock dataset: the products table. -/
def MockService.mock_products : List (String × JDict) :=
  [("iphone13",
    [("name", JValue.str "iPhone 13"),
     ("description", JValue.str "Latest Apple smartphone with A15 Bionic chip"),
     ("price", JValue.str "799.99"),
     ("specifications", JValue.obj
       [("screen_size", JValue.str "6.1 inches"),
        ("storage", JValue.str "128GB"),
        ("color", JValue.str "Blue")])])]

/-- Fixed mock dataset: the inventory table. -/
def MockService.mock_inventory : List (String × JDict) :=
  [("iphone13",
    [("product_name", JValue.str "iPhone 13"),
     ("available_quantity", JValue.num 15),
     ("restock_date", JValue.str "2024-01-15")])]

/-- Fixed mock dataset: the stores list. -/
def MockService.mock_stores : List JValue :=
  [JValue.obj
    [("name", JValue.str "Downtown Store"),
     ("address", JValue.str "123 Main Street, Downtown"),
     ("phone", JValue.str "(555) 123-4567"),
     ("hours", JValue.str "Mon-Sat 9AM-9PM, Sun 10AM-6PM"),
     ("distance", JValue.str "0.5 miles")],
   JValue.obj
    [("name", JValue.str "Mall Location"),
     ("address", JValue.str "456 Shopping Center Dr"),
     ("phone", JValue.str "(555) 987-6543"),
     ("hours", JValue.str "Mon-Sat 10AM-10PM, Sun 11AM-7PM"),
     ("distance", JValue.str "2.3 miles")]]

/-- `MockService._make_request`: deterministic routing over the fixed
in-memory dataset (the simulated latency is not modelled). -/
def MockService.makeRequest (endpoint : String) : APIResponse :=
  if strContains endpoint "/orders/" then
    let order_number := pyLast (pySplitSlash endpoint)
    match List.lookup order_number MockService.mock_orders with
    | some od => { success := true, data := some od }
    | none => { success := false, error := some "Order not found",
                status_code := some 404 }
  else if strContains endpoint "/products/" then
    let product_id := pyLast (pySplitSlash endpoint)
    match List.lookup product_id MockService.mock_products with
    | some pd => { success := true, data := some pd }
    | none => { success := false, error := some "Product not found",
                status_code := some 404 }
  else if strContains endpoint "/inventory/" then
    let product_id := pyLast (pySplitSlash endpoint)
    match List.lookup product_id MockService.mock_inventory with
    | some inv => { success := true, data := some inv }
    | none => { success := true,
                data := some [("available_quantity", JValue.num 0)] }
  else if strContains endpoint "/stores/" then
    { success := true,
      data := some [("stores", JValue.arr MockService.mock_stores)] }
  else if endpoint == "/health" then
    { success := true, data := some [("status", JValue.str "healthy")] }
  else
    { success := false, error := some "Endpoint not found",
      status_code := some 404 }

/-- C7: for an order number absent from the backend dataset the order
lookup returns a successful normalized result with
`order_info.found = false` and the "Order not found" note, raising
nothing past the adapter boundary (the adapter returns an
`APIResponse`, never an exception); and `MockService._make_request`
answers any `/orders/` request for an absent order number with a
non-successful 404 response, which is exactly the shape the first part
normalizes.  Hypotheses: breaker CLOSED and a cold cache (an absent
order is never cached, since only 200-status GETs are stored). -/
theorem claim_C7 (svc : BaseService) (now : Nat)
    (order_number : String) (customer_id : Option String)
    (status : Nat) (body : JDict) (text : String)
    (hcb : svc.circuit_breaker.state = .closed) (hcache : svc.cache = [])
    (hst : status ≠ 200) (endpoint : String)
    (hep : strContains endpoint "/orders/" = true)
    (habs : List.lookup (pyLast (pySplitSlash endpoint))
      MockService.mock_orders = none) :
    (OrderService.get_order svc now order_number customer_id
        (.response status body text)).1
      = { success := true,
          data := some [("order_info",
            JValue.obj [("found", JValue.bool false)])],
          error := some "Order not found" } ∧
    MockService.makeRequest endpoint
      = { success := false, error := some "Order not found",
          status_code := some 404 } := by
  have hbeq : (status == 200) = false := by simpa using hst
  constructor
  · simp [OrderService.get_order, BaseService.requestViaBreaker,
      BaseService.makeRequest, BaseService.networkRequest, hcache, hbeq,
      isCacheValid, call_ok_closed _ _ _ hcb, dictTruthy]
  · rw [MockService.makeRequest]
    simp only [hep, if_true, habs]

theorem claim_C7_witness :
    (OrderService.get_order (BaseService.init "https://api.example.com" none)
        0 "ZZ404" none (.response 404 [] "not found")).1
      = { success := true,
          data := some [("order_info",
            JValue.obj [("found", JValue.bool false)])],
          error := some "Order not found" } ∧
    MockService.makeRequest "/orders/ZZ404"
      = { success := false, error := some "Order not found",
          status_code := some 404 } :=
  claim_C7 (BaseService.init "https://api.example.com" none) 0 "ZZ404" none
    404 [] "not found" rfl rfl (by decide) "/orders/ZZ404" rfl rfl

/-! ## Integrator initialization and per-service state
(`BackendIntegrator.__init__`/`initialize`, integration.py lines
602-648; `BaseService.__init__` lines 97-102) -/

/-- Settings fields consulted by `BackendIntegrator.initialize`
(defaults from `config/settings.py`). -/
structure Settings where
  ENVIRONMENT : String := "development"
  ORDER_API_BASE_URL : String := "https://api.example.com/orders"

/-- Mock-selection heuristic of `initialize` (lines 614-618): a falsy
(empty) order base URL, the placeholder URL, or development mode. -/
def shouldUseMock (s : Settings) : Bool :=
  s.ENVIRONMENT == "development" ||
  s.ORDER_API_BASE_URL == "" ||
  s.ORDER_API_BASE_URL == "https://api.example.com/orders"

/-- The four service names keyed in `self.services`. -/
inductive ServiceName
  | order
  | inventory
  | product
  | store
  deriving DecidableEq, Repr

/-- Identity of the distinct constructed service objects in the real
branch of `initialize` (each constructor call creates a fresh
`BaseService` with its own breaker and cache). -/
def serviceIndex : ServiceName → Nat
  | .order => 0
  | .inventory => 1
  | .product => 2
  | .store => 3

/-- Object layout produced by `initialize`: which underlying service
instance each of the four names is bound to.  The mock branch binds
every name to the single `MockService()` object; the real branch binds
each name to its own freshly constructed service. -/
structure IntegratorLayout where
  use_mock_services : Bool
  services : ServiceName → Nat

/-- `BackendIntegrator.initialize` object graph. -/
def BackendIntegrator.initializeLayout (s : Settings) : IntegratorLayout :=
  if shouldUseMock s then
    { use_mock_services := true, services := fun _ => 0 }
  else
    { use_mock_services := false, services := serviceIndex }

/-- Per-instance breaker store: the breaker owned by each underlying
service object. -/
def observeBreaker (lay : IntegratorLayout) (store : Nat → CircuitBreaker)
    (n : ServiceName) : CircuitBreaker :=
  store (lay.services n)

/-- Effect on the breaker store of one call routed through the service
bound to name `n`: only that object's breaker transitions. -/
def recordCall (lay : IntegratorLayout) (store : Nat → CircuitBreaker)
    (n : ServiceName) (now : Nat) (op : Except String Unit) :
    Nat → CircuitBreaker :=
  fun i => if i = lay.services n then ((store i).call now op).2.1 else store i

/-- Effect of a sequence of calls routed through name `n`. -/
def recordCalls (lay : IntegratorLayout) (store : Nat → CircuitBreaker)
    (n : ServiceName) : List (Nat × Except String Unit) →
    Nat → CircuitBreaker
  | [] => store
  | (now, op) :: rest => recordCalls lay (recordCall lay store n now op) n rest

/-- C8 counterexample: in a mock-mode integrator (development settings)
all four service names are bound to the one shared `MockService`
instance, so five failing calls recorded through the "order" name flip
the breaker observed through the "inventory" name from CLOSED to OPEN —
a breaker transition caused by one service's calls changes the state
observed by a different service, contradicting the claimed isolation
for every initialized integrator. -/
theorem claim_C8_counterexample :
    (observeBreaker
      (BackendIntegrator.initializeLayout
        { ENVIRONMENT := "development",
          ORDER_API_BASE_URL := "https://orders.real.example.com" })
      (fun _ => {}) .inventory).state = .closed ∧
    (observeBreaker
      (BackendIntegrator.initializeLayout
        { ENVIRONMENT := "development",
          ORDER_API_BASE_URL := "https://orders.real.example.com" })
      (recordCalls
        (BackendIntegrator.initializeLayout
          { ENVIRONMENT := "development",
            ORDER_API_BASE_URL := "https://orders.real.example.com" })
        (fun _ => {}) .order
        [(0, .error "e"), (0, .error "e"), (0, .error "e"),
         (0, .error "e"), (0, .error "e")])
      .inventory).state = .opened := by
  constructor
  · rfl
  · rfl

/-- C8 (amended): only the real-service branch of `initialize` gives
each of the four names its own service instance (hence its own breaker
state and cache namespace): when the mock heuristic is off, distinct
names are bound to distinct instances and a breaker transition recorded
through one name leaves the breaker observed through any other name
unchanged.  In the mock branch all four names share the single
`MockService` instance (see the counterexample). -/
theorem claim_C8 (s : Settings) (hreal : shouldUseMock s = false)
    (n m : ServiceName) (hnm : n ≠ m) (store : Nat → CircuitBreaker)
    (now : Nat) (op : Except String Unit) :
    (BackendIntegrator.initializeLayout s).services n
      ≠ (BackendIntegrator.initializeLayout s).services m ∧
    observeBreaker (BackendIntegrator.initializeLayout s)
      (recordCall (BackendIntegrator.initializeLayout s) store n now op) m
      = observeBreaker (BackendIntegrator.initializeLayout s) store m := by
  have hlay : BackendIntegrator.initializeLayout s
      = { use_mock_services := false, services := serviceIndex } := by
    rw [BackendIntegrator.initializeLayout, hreal]
    rfl
  have hidx : serviceIndex n ≠ serviceIndex m := by
    cases n <;> cases m <;> first | exact absurd rfl hnm | decide
  constructor
  · rw [hlay]
    exact hidx
  · rw [hlay, observeBreaker, observeBreaker, recordCall]
    simp only []
    rw [if_neg (fun hh => hidx hh.symm)]

theorem claim_C8_witness :
    (BackendIntegrator.initializeLayout
      { ENVIRONMENT := "production",
        ORDER_API_BASE_URL := "https://orders.real.example.com" }).services
      .order
      ≠ (BackendIntegrator.initializeLayout
          { ENVIRONMENT := "production",
            ORDER_API_BASE_URL := "https://orders.real.example.com" }).services
          .store ∧
    observeBreaker
      (BackendIntegrator.initializeLayout
        { ENVIRONMENT := "production",
          ORDER_API_BASE_URL := "https://orders.real.example.com" })
      (recordCall
        (BackendIntegrator.initializeLayout
          { ENVIRONMENT := "production",
            ORDER_API_BASE_URL := "https://orders.real.example.com" })
        (fun _ => {}) .order 0 (.error "e"))
      .store
      = observeBreaker
          (BackendIntegrator.initializeLayout
            { ENVIRONMENT := "production",
              ORDER_API_BASE_URL := "https://orders.real.example.com" })
          (fun _ => {}) .store :=
  claim_C8
    { ENVIRONMENT := "production",
      ORDER_API_BASE_URL := "https://orders.real.example.com" }
    (by decide) .order .store (by decide) (fun _ => {}) 0 (.error "e")

/-! ## Backend orchestrator
(`BackendIntegrator.process_request` and `_handle_*`, integration.py
lines 656-761) -/

/-- Python `str.lower()` (character-wise, ASCII use sites). -/
def pyLower (s : String) : String :=
  String.mk (s.data.map Char.toLower)

/-- Python `s.replace(" ", "")`: removes every space. -/
def pyRemoveSpaces (s : String) : String :=
  String.mk (s.data.filter (fun c => c != ' '))

/-- Product-id normalization `products[0].lower().replace(" ", "")`. -/
def normalizeProduct (p : String) : String :=
  pyRemoveSpaces (pyLower p)

/-- Orchestrator input entities: `map(string -> list(string))`. -/
abbrev Entities := List (String × List String)

/-- Python `entities.get(k, [])`. -/
def entitiesGet (es : Entities) (k : String) : List String :=
  (List.lookup k es).getD []

/-- Python `xs or ys` on candidate lists: the left operand unless it is
falsy (empty). -/
def pythonOr (a b : List String) : List String :=
  if a.isEmpty then b else a

/-- The adapter operations the orchestrator can await; the adapters
themselves are supplied as an oracle from requests to results, where
`Except.error` models the awaited call raising. -/
inductive AdapterReq
  | getOrder (order_number : String) (customer_id : Option String)
  | checkAvailability (product_id : String)
  | getProductInfo (product_id : String)
  | findStores (location : String)
  deriving DecidableEq, Repr

/-- Python `None` / `str` to JSON value for `{"error": response.error}`. -/
def optStrJ : Option String → JValue
  | none => JValue.null
  | some s => JValue.str s

/-- Handler tail `response.data if response.success else
{"error": response.error}`. -/
def handleAdapterResponse (r : APIResponse) : Option JDict :=
  if r.success then r.data else some [("error", optStrJ r.error)]

/-- `_handle_order_tracking` (lines 688-700); the returned list records
the adapter calls awaited. -/
def handleOrderTracking (adapters : AdapterReq → Except String APIResponse)
    (es : Entities) (customer_id : Option String) :
    Except String (Option JDict) × List AdapterReq :=
  match entitiesGet es "order_number" with
  | [] => (.ok (some [("error", JValue.str "No order number provided")]), [])
  | o :: _ =>
      let req := AdapterReq.getOrder o customer_id
      match adapters req with
      | .error e => (.error e, [req])
      | .ok response => (.ok (handleAdapterResponse response), [req])

/-- `_handle_inventory_check` (lines 702-712). -/
def handleInventoryCheck (adapters : AdapterReq → Except String APIResponse)
    (es : Entities) : Except String (Option JDict) × List AdapterReq :=
  match pythonOr (entitiesGet es "products") (entitiesGet es "product_mention") with
  | [] => (.ok (some [("error", JValue.str "No product specified")]), [])
  | p :: _ =>
      let req := AdapterReq.checkAvailability (normalizeProduct p)
      match adapters req with
      | .error e => (.error e, [req])
      | .ok response => (.ok (handleAdapterResponse response), [req])

/-- `_handle_product_info` (lines 714-724). -/
def handleProductInfo (adapters : AdapterReq → Except String APIResponse)
    (es : Entities) : Except String (Option JDict) × List AdapterReq :=
  match pythonOr (entitiesGet es "products") (entitiesGet es "product_mention") with
  | [] => (.ok (some [("error", JValue.str "No product specified")]), [])
  | p :: _ =>
      let req := AdapterReq.getProductInfo (normalizeProduct p)
      match adapters req with
      | .error e => (.error e, [req])
      | .ok response => (.ok (handleAdapterResponse response), [req])

/-- `_handle_store_locator` (lines 726-738): with no location entity the
literal "current location" is substituted rather than erroring. -/
def handleStoreLocator (adapters : AdapterReq → Except String APIResponse)
    (es : Entities) : Except String (Option JDict) × List AdapterReq :=
  let location :=
    match pythonOr (entitiesGet es "locations") (entitiesGet es "store_location") with
    | [] => "current location"
    | l :: _ => l
  let req := AdapterReq.findStores location
  match adapters req with
  | .error e => (.error e, [req])
  | .ok response => (.ok (handleAdapterResponse response), [req])

/-- `_handle_pricing` (lines 740-761).  A non-dict `product_info` value
would make Python's `.get` raise, modelled by the `AttributeError`
branch. -/
def handlePricing (adapters : AdapterReq → Except String APIResponse)
    (es : Entities) : Except String (Option JDict) × List AdapterReq :=
  match entitiesGet es "products" with
  | [] => (.ok (some [("error", JValue.str "No product specified")]), [])
  | p :: _ =>
      let product_id := normalizeProduct p
      let req := AdapterReq.getProductInfo product_id
      match adapters req with
      | .error e => (.error e, [req])
      | .ok response =>
          if response.success && dictTruthy response.data then
            match dictGetD (response.data.getD []) "product_info"
                (JValue.obj []) with
            | JValue.obj fields =>
                if strContains
                    (jsonStr (dictGetD fields "details" (JValue.str "")))
                    "price" then
                  (.ok (some [("pricing_info", JValue.obj
                    [("product_name",
                      dictGetD fields "name" (JValue.str product_id)),
                     ("price", JValue.str "See product details"),
                     ("promotion",
                      JValue.str "Check our website for current promotions")])]),
                   [req])
                else
                  (.ok (some [("error",
                    JValue.str "Pricing information not available")]), [req])
            | _ => (.error "AttributeError", [req])
          else
            (.ok (some [("error",
              JValue.str "Pricing information not available")]), [req])

/-- Dispatch inside the `try` block of `process_request`
(lines 665-682). -/
def processRaw (adapters : AdapterReq → Except String APIResponse)
    (intent : String) (es : Entities) (customer_id : Option String) :
    Except String (Option JDict) × List AdapterReq :=
  if intent == "track_order" then handleOrderTracking adapters es customer_id
  else if intent == "inventory_check" then handleInventoryCheck adapters es
  else if intent == "product_info" then handleProductInfo adapters es
  else if intent == "store_locator" then handleStoreLocator adapters es
  else if intent == "pricing" then handlePricing adapters es
  else (.ok (some [("error", JValue.str ("Unsupported intent: " ++ intent))]), [])

/-- `process_request` (lines 656-686): the dispatch wrapped in
`try/except`, converting any raised exception into
`{"error": str(e)}`.  Total by construction — it always returns a
value, never an exception. -/
def processRequest (adapters : AdapterReq → Except String APIResponse)
    (intent : String) (es : Entities) (customer_id : Option String) :
    Option JDict × List AdapterReq :=
  match processRaw adapters intent es customer_id with
  | (.ok d, calls) => (d, calls)
  | (.error e, calls) => (some [("error", JValue.str e)], calls)

/-- C9: `process_request` never raises: it is total, and (a) whenever
the dispatched handler raises an exception `e` (in particular when an
awaited adapter call raises), the result is the structured map
`{"error": e}`; (b) an unsupported intent yields the structured
unsupported-intent map with no adapter call; (c)/(d)/(e) each supported
entity-requiring intent whose required entity lists are empty yields a
structured missing-information map with no adapter call. -/
theorem claim_C9 (adapters : AdapterReq → Except String APIResponse)
    (intent : String) (es : Entities) (cid : Option String) :
    (∀ e calls, processRaw adapters intent es cid = (.error e, calls) →
      processRequest adapters intent es cid
        = (some [("error", JValue.str e)], calls)) ∧
    (intent ∉ (["track_order", "inventory_check", "product_info",
        "store_locator", "pricing"] : List String) →
      processRequest adapters intent es cid
        = (some [("error", JValue.str ("Unsupported intent: " ++ intent))],
           [])) ∧
    (intent = "track_order" → entitiesGet es "order_number" = [] →
      processRequest adapters intent es cid
        = (some [("error", JValue.str "No order number provided")], [])) ∧
    ((intent = "inventory_check" ∨ intent = "product_info") →
      entitiesGet es "products" = [] →
      entitiesGet es "product_mention" = [] →
      processRequest adapters intent es cid
        = (some [("error", JValue.str "No product specified")], [])) ∧
    (intent = "pricing" → entitiesGet es "products" = [] →
      processRequest adapters intent es cid
        = (some [("error", JValue.str "No product specified")], [])) := by
  refine ⟨?_, ?_, ?_, ?_, ?_⟩
  · intro e calls h
    simp [processRequest, h]
  · intro hmem
    have h1 : (intent == "track_order") = false :=
      beq_eq_false_iff_ne.mpr (fun hh => hmem (by simp [hh]))
    have h2 : (intent == "inventory_check") = false :=
      beq_eq_false_iff_ne.mpr (fun hh => hmem (by simp [hh]))
    have h3 : (intent == "product_info") = false :=
      beq_eq_false_iff_ne.mpr (fun hh => hmem (by simp [hh]))
    have h4 : (intent == "store_locator") = false :=
      beq_eq_false_iff_ne.mpr (fun hh => hmem (by simp [hh]))
    have h5 : (intent == "pricing") = false :=
      beq_eq_false_iff_ne.mpr (fun hh => hmem (by simp [hh]))
    simp [processRequest, processRaw, h1, h2, h3, h4, h5]
  · intro hint hov
    subst hint
    simp [processRequest, processRaw, handleOrderTracking, hov]
  · intro hint hp hpm
    rcases hint with hint | hint <;> subst hint <;>
      simp [processRequest, processRaw, handleInventoryCheck,
        handleProductInfo, pythonOr, hp, hpm]
  · intro hint hp
    subst hint
    simp [processRequest, processRaw, handlePricing, hp]

theorem claim_C9_witness :
    processRequest (fun _ => .error "boom") "track_order"
      [("order_number", ["AB12345678"])] none
      = (some [("error", JValue.str "boom")],
         [AdapterReq.getOrder "AB12345678" none]) :=
  (claim_C9 (fun _ => .error "boom") "track_order"
     [("order_number", ["AB12345678"])] none).1 "boom"
     [AdapterReq.getOrder "AB12345678" none] rfl

/-- C10 (implicit behaviour): when the entities map has neither a
"locations" nor a "store_location" entry, the store_locator intent does
not produce a missing-information error: the literal location
"current location" is substituted, the store adapter's find_stores is
awaited with it (the only adapter call made), and its result is
surfaced as the orchestrator result (its data on success, an error map
otherwise). -/
theorem claim_C10 (adapters : AdapterReq → Except String APIResponse)
    (es : Entities) (cid : Option String)
    (h1 : List.lookup "locations" es = none)
    (h2 : List.lookup "store_location" es = none) :
    processRequest adapters "store_locator" es cid
      = (match adapters (AdapterReq.findStores "current location") with
         | .error e => some [("error", JValue.str e)]
         | .ok r => handleAdapterResponse r,
         [AdapterReq.findStores "current location"]) := by
  rcases hh : adapters (AdapterReq.findStores "current location")
    with e | r <;>
    simp [processRequest, processRaw, handleStoreLocator, entitiesGet,
      pythonOr, h1, h2, hh]

theorem claim_C10_witness :
    processRequest
      (fun _ => Except.ok
        { success := true, data := some [("stores", JValue.arr [])] })
      "store_locator" [("order_number", ["X"])] none
      = (some [("stores", JValue.arr [])],
         [AdapterReq.findStores "current location"]) :=
  claim_C10
    (fun _ => Except.ok
      { success := true, data := some [("stores", JValue.arr [])] })
    [("order_number", ["X"])] none rfl rfl
